import Mathlib

/-!
Shallow embedding of the CareAssist.ai repository (src/main.py and
src/healthcare_mcp_server.py) with theorems settling the frozen claims.

The repository wraps a remote file-storage API (Google Drive) behind a few
tool functions.  We embed the remote store as an explicit value (a list of
file records), remote calls as pure functions of that value, the credential
flow as a function of the persisted credential and of the two external
collaborators (the refresh endpoint and the interactive authorization flow),
and fallible remote calls as `Except String` values threaded to the flow
boundary, where the Python `try/except` blocks are modelled by a `match`.
-/

/-! ## Credential flow (main.py `authenticate_google_drive`,
    healthcare_mcp_server.py `get_google_drive_service`) -/

/-- A persisted OAuth credential: bearer token, expiry flag, optional refresh
token.  Mirrors the fields of `google.oauth2.credentials.Credentials` that the
code inspects (`valid`, `expired`, `refresh_token`). -/
structure Credential where
  token : Option String
  expired : Bool
  refreshToken : Option String
  deriving DecidableEq

/-- `Credentials.valid` in the client library: a token is present and not
expired. -/
def Credential.valid (c : Credential) : Bool :=
  c.token.isSome && !c.expired

/-- Observable outcome of one run of a credential-obtaining function: the
credential handed to `build`, the content of the persisted token file
afterwards, and how many refresh / interactive-authorization calls occurred. -/
structure AuthOutcome where
  creds : Credential
  stored : Option Credential
  refreshCalls : Nat
  interactiveCalls : Nat
  deriving DecidableEq

/-- Embedding of `authenticate_google_drive` (src/main.py lines 13-39).
`refreshFn` is the external refresh endpoint (`creds.refresh(Request())`,
mutating the credential in place), `interactiveCred` the credential produced
by `flow.run_local_server`, and `stored` the content of `token.pickle`
(`none` when the file is absent).  The Python control flow:
load; if not creds or not creds.valid: (if creds and creds.expired and
creds.refresh_token: refresh else: interactive); save; return. -/
def authenticate_google_drive (refreshFn : Credential → Credential)
    (interactiveCred : Credential) (stored : Option Credential) : AuthOutcome :=
  match stored with
  | none =>
      { creds := interactiveCred, stored := some interactiveCred,
        refreshCalls := 0, interactiveCalls := 1 }
  | some creds =>
      if !creds.valid then
        if creds.expired && creds.refreshToken.isSome then
          let creds := refreshFn creds
          { creds := creds, stored := some creds,
            refreshCalls := 1, interactiveCalls := 0 }
        else
          { creds := interactiveCred, stored := some interactiveCred,
            refreshCalls := 0, interactiveCalls := 1 }
      else
        { creds := creds, stored := some creds,
          refreshCalls := 0, interactiveCalls := 0 }

/-- Embedding of `get_google_drive_service` (src/healthcare_mcp_server.py
lines 47-59).  Unlike `authenticate_google_drive` it has no refresh branch:
any invalid (or absent) stored credential goes straight to interactive
authorization, and only that path writes `token.json`. -/
def get_google_drive_service (interactiveCred : Credential)
    (stored : Option Credential) : AuthOutcome :=
  match stored with
  | none =>
      { creds := interactiveCred, stored := some interactiveCred,
        refreshCalls := 0, interactiveCalls := 1 }
  | some creds =>
      if !creds.valid then
        { creds := interactiveCred, stored := some interactiveCred,
          refreshCalls := 0, interactiveCalls := 1 }
      else
        { creds := creds, stored := some creds,
          refreshCalls := 0, interactiveCalls := 0 }

/-! ## Remote store and folder resolution (main.py `find_folder_id`) -/

/-- A file record in the remote Drive store, carrying the metadata the code
queries or projects (`id, name, mimeType, size, modifiedTime, webViewLink`)
plus the `parents` containment and `trashed` flag the query strings filter on.
`size` and `webViewLink` are optional: the API may omit them (the code uses
`.get(..., 'N/A')`). -/
structure DriveFile where
  id : String
  name : String
  mimeType : String
  size : Option String
  modifiedTime : String
  webViewLink : Option String
  parents : List String
  trashed : Bool
  deriving DecidableEq

/-- The folder MIME type used in `find_folder_id`'s query string. -/
def folderMime : String := "application/vnd.google-apps.folder"

/-- The result set of `find_folder_id`'s query
`name=<folder_name> and mimeType=<folder> and trashed=false` against a drive
state. -/
def folderQuery (drive : List DriveFile) (folderName : String) : List DriveFile :=
  drive.filter (fun f => f.name == folderName && f.mimeType == folderMime && !f.trashed)

/-- Embedding of `find_folder_id` (src/main.py lines 41-51): run the folder
name-equality query; if the result list is empty return `None`, otherwise
return the id of the FIRST entry (`folders[0]['id']`). -/
def find_folder_id (drive : List DriveFile) (folderName : String) : Option String :=
  match folderQuery drive folderName with
  | [] => none
  | f :: _ => some f.id

/-- C7: zero matches give `none` (and the function is total, so absence never
raises). -/
theorem find_folder_id_none_of_empty (drive : List DriveFile) (folderName : String)
    (h : folderQuery drive folderName = []) :
    find_folder_id drive folderName = none := by
  unfold find_folder_id
  rw [h]

/-! ## File listing (main.py `list_files_in_folder`) -/

/-- The dictionary built for each file by `list_files_in_folder`
(src/main.py lines 93-100): absent `size` / `webViewLink` become "N/A". -/
structure FileInfo where
  id : String
  name : String
  mimeType : String
  size : String
  modifiedTime : String
  webViewLink : String
  deriving DecidableEq

def toFileInfo (f : DriveFile) : FileInfo :=
  { id := f.id, name := f.name, mimeType := f.mimeType,
    size := f.size.getD "N/A", modifiedTime := f.modifiedTime,
    webViewLink := f.webViewLink.getD "N/A" }

/-- Result set of the children query `<folder_id> in parents and
trashed=false` against a drive state. -/
def childrenOf (drive : List DriveFile) (folderId : String) : List DriveFile :=
  drive.filter (fun f => f.parents.contains folderId && !f.trashed)

/-- One page of a paginated `files().list` response: the served slice plus a
continuation token when more results remain. -/
structure Page where
  files : List DriveFile
  nextPageToken : Option String
  deriving DecidableEq

/-- The first page the service returns for the children query at the given
page size: the first `pageSize` matches, with a continuation token present
exactly when matches remain beyond the page. -/
def filesPage (drive : List DriveFile) (folderId : String) (pageSize : Nat) : Page :=
  let matching := childrenOf drive folderId
  { files := matching.take pageSize,
    nextPageToken := if pageSize < matching.length then some "continuationToken" else none }

/-- Embedding of `list_files_in_folder` (src/main.py lines 53-110) as a state
transformer on the remote drive: resolve the folder id (a falsy id — `None`
or the empty string — returns `[]`), issue ONE `files().list` call with
`pageSize=1000` (the code asks for `nextPageToken` in `fields` but never
reads it and issues no follow-up call), and project the page into
`FileInfo` records.  The drive itself is only read (the scope is
drive.readonly), so it is returned unchanged. -/
def list_files_run (drive : List DriveFile) (folderName : String) :
    List FileInfo × List DriveFile :=
  match find_folder_id drive folderName with
  | none => ([], drive)
  | some folderId =>
      if folderId == "" then ([], drive)
      else
        let page := filesPage drive folderId 1000
        let files := page.files
        if files.isEmpty then ([], drive)
        else (files.map toFileInfo, drive)

/-- The value `list_files_in_folder` returns to its caller. -/
def list_files_in_folder (drive : List DriveFile) (folderName : String) :
    List FileInfo :=
  (list_files_run drive folderName).1

/-- The `except Exception` boundary of `list_files_in_folder`
(src/main.py lines 112-114): any exception raised by the body is caught, a
message is printed, and the EMPTY LIST is returned — the returned value does
not carry the error message. -/
def list_files_catch (body : Except String (List FileInfo)) : List FileInfo :=
  match body with
  | .ok l => l
  | .error _ => []

/-! ## Chunked download (healthcare_mcp_server.py `get_latest_lab_results`,
    lines 157-165) -/

/-- The `while done is False: status, done = downloader.next_chunk()` loop:
`fh` is the accumulated buffer, `chunks` the chunks the transport still
reports pending, each either a byte chunk or a raised transport error.  The
loop appends each delivered chunk to the buffer and returns the buffer only
once the transport reports no chunk pending; a raised error aborts the whole
download. -/
def runDownload (fh : List Nat) (chunks : List (Except String (List Nat))) :
    Except String (List Nat) :=
  match chunks with
  | [] => .ok fh
  | c :: rest =>
      match c with
      | .error e => .error e
      | .ok chunk => runDownload (fh ++ chunk) rest

/-- `content = fh.getvalue().decode('utf-8')` — model of UTF-8 decoding of
the accumulated buffer. -/
def decodeBytes (bs : List Nat) : String :=
  String.mk (bs.map Char.ofNat)

/-! ## Flow-boundary tools (healthcare_mcp_server.py) -/

/-- The metadata `files(id, name, modifiedTime)` projected by the search
queries of `search_medical_documents` and `get_latest_lab_results`. -/
structure LabFile where
  id : String
  name : String
  modifiedTime : String
  deriving DecidableEq

/-- The report built by `search_medical_documents` from a non-empty result
list: a header plus one line per file. -/
def formatSearchResults (dtype : String) (files : List LabFile) : String :=
  files.foldl
    (fun acc f => acc ++ "- " ++ f.name ++ " (Last modified: " ++ f.modifiedTime ++ ")\n")
    ("Found " ++ toString files.length ++ " " ++ dtype ++ " document(s):\n")

/-- Embedding of `search_medical_documents` (src/healthcare_mcp_server.py
lines 104-129).  `svc` is the `get_google_drive_service()` call and
`listResult` the `files().list(...).execute()` call, each of which may raise;
the surrounding `try/except` converts any raised exception into the string
`"Error accessing documents: " ++ e`. -/
def search_medical_documents (svc : Except String Unit)
    (listResult : Except String (List LabFile)) (pid dtype : String) : String :=
  match svc with
  | .error e => "Error accessing documents: " ++ e
  | .ok _ =>
      match listResult with
      | .error e => "Error accessing documents: " ++ e
      | .ok files =>
          match files with
          | [] => "No " ++ dtype ++ " documents found for patient " ++ pid
          | _ => formatSearchResults dtype files

/-- Embedding of `get_latest_lab_results` (src/healthcare_mcp_server.py
lines 131-169).  `svc` and `listResult` are the fallible service calls;
`transport` gives, per file id, the chunk sequence the download transport
reports.  An empty result list returns "No lab results found."; otherwise the
first file's content is downloaded chunk by chunk and formatted; any raised
exception is converted by the `try/except` into
`"Error retrieving lab results: " ++ e`. -/
def get_latest_lab_results (svc : Except String Unit)
    (listResult : Except String (List LabFile))
    (transport : String → List (Except String (List Nat))) : String :=
  match svc with
  | .error e => "Error retrieving lab results: " ++ e
  | .ok _ =>
      match listResult with
      | .error e => "Error retrieving lab results: " ++ e
      | .ok files =>
          match files with
          | [] => "No lab results found."
          | file :: _ =>
              match runDownload [] (transport file.id) with
              | .error e => "Error retrieving lab results: " ++ e
              | .ok content =>
                  "Latest lab results from " ++ file.modifiedTime ++ ":\n" ++
                    decodeBytes content

/-! ## In-memory patient database (healthcare_mcp_server.py lines 14-42)
    and the read-only lookup tools -/

structure DeptRecord where
  lastVisit : String
  diagnosis : String
  medications : List String
  deriving DecidableEq

structure Patient where
  name : String
  age : Nat
  departments : List (String × DeptRecord)
  deriving DecidableEq

abbrev PatientsDb := List (String × Patient)

/-- The hard-coded `patients_db` mapping. -/
def patients_db : PatientsDb :=
  [("P001",
    { name := "John Doe", age := 45,
      departments :=
        [("cardiology",
          { lastVisit := "2025-09-15", diagnosis := "Hypertension",
            medications := ["Lisinopril", "Amlodipine"] }),
         ("orthopedics",
          { lastVisit := "2025-08-20", diagnosis := "Osteoarthritis",
            medications := ["Ibuprofen"] })] }),
   ("P002",
    { name := "Jane Smith", age := 32,
      departments :=
        [("neurology",
          { lastVisit := "2025-10-01", diagnosis := "Migraine",
            medications := ["Sumatriptan"] })] })]

/-- Embedding of `get_patient_info` (lines 66-71) as a state transformer on
the database: a single `patients_db.get(patient_id)` read, then string
formatting; the database is returned unchanged because the code contains no
write to it. -/
def get_patient_info_run (db : PatientsDb) (pid : String) : String × PatientsDb :=
  match db.lookup pid with
  | some p => ("Patient " ++ pid ++ ": " ++ p.name ++ ", Age: " ++ toString p.age, db)
  | none => ("Patient ID not found.", db)

/-- Model of Python `str.lower()` (ASCII-sufficient for the department keys
in use): lowercase every character. -/
def strLower (s : String) : String :=
  String.mk (s.data.map Char.toLower)

/-- The department lookup performed by `get_department_history`:
`patient['departments'].get(department.lower())`. -/
def deptLookup (db : PatientsDb) (pid department : String) : Option DeptRecord :=
  (db.lookup pid).bind (fun p => p.departments.lookup (strLower department))

/-- Embedding of `get_department_history` (lines 75-91): look the patient up
by exact id, look the department up by the LOWERCASED argument, and format;
the echoed `Department:` line uses the argument as given. -/
def get_department_history_run (db : PatientsDb) (pid department : String) :
    String × PatientsDb :=
  match db.lookup pid with
  | none => ("Patient ID not found.", db)
  | some p =>
      match p.departments.lookup (strLower department) with
      | none => ("No records found for " ++ department ++ " department.", db)
      | some d =>
          ("\nPatient: " ++ p.name ++
           "\nDepartment: " ++ department ++
           "\nLast Visit: " ++ d.lastVisit ++
           "\nDiagnosis: " ++ d.diagnosis ++
           "\nCurrent Medications: " ++ String.intercalate ", " d.medications ++
           "\n", db)

/-- Embedding of `get_all_departments` (lines 95-102). -/
def get_all_departments_run (db : PatientsDb) (pid : String) : String × PatientsDb :=
  match db.lookup pid with
  | none => ("Patient ID not found.", db)
  | some p =>
      ("Patient " ++ p.name ++ " has records in: " ++
       String.intercalate ", " (p.departments.map Prod.fst), db)

/-! ## Claim theorems -/

/-- C7 witness: on an empty drive the folder query has zero matches and
`find_folder_id` returns `none`. -/
theorem find_folder_id_none_of_empty_witness :
    find_folder_id [] "PatientRecord" = none :=
  find_folder_id_none_of_empty [] "PatientRecord" rfl

/-- A drive holding two distinct non-trashed folders that share the name
"PatientRecord". -/
def ambigDrive : List DriveFile :=
  [{ id := "folderA", name := "PatientRecord", mimeType := folderMime,
     size := none, modifiedTime := "2025-01-01T00:00:00Z", webViewLink := none,
     parents := [], trashed := false },
   { id := "folderB", name := "PatientRecord", mimeType := folderMime,
     size := none, modifiedTime := "2025-02-01T00:00:00Z", webViewLink := none,
     parents := [], trashed := false }]

/-- C1: on a query with two same-named folder matches, `find_folder_id`
returns the id of the FIRST match (`folders[0]['id']`), exactly the silent
index-0 selection the claim says does not happen; no Ambiguous result exists
in the code. -/
theorem find_folder_id_picks_first_on_ambiguity :
    (folderQuery ambigDrive "PatientRecord").length = 2 ∧
    find_folder_id ambigDrive "PatientRecord" = some "folderA" := by
  decide

/-- A stale persisted credential: expired, but carrying a refresh token. -/
def expiredCred : Credential :=
  { token := some "stale-token", expired := true, refreshToken := some "refresh-token" }

/-- The credential produced by `flow.run_local_server` in the fixtures. -/
def freshCred : Credential :=
  { token := some "fresh-token", expired := false, refreshToken := some "refresh-token-2" }

/-- C2 counterexample: `get_google_drive_service` given a persisted expired
credential WITH a refresh token performs zero refresh calls and starts
interactive authorization — the claim (exactly one refresh, no interactive
authorization) is false for this credential-obtaining operation. -/
theorem get_google_drive_service_never_refreshes :
    expiredCred.expired = true ∧ expiredCred.refreshToken.isSome = true ∧
    get_google_drive_service freshCred (some expiredCred) =
      { creds := freshCred, stored := some freshCred,
        refreshCalls := 0, interactiveCalls := 1 } := by
  decide

/-- C2 amended: `authenticate_google_drive` (main.py) given a persisted
expired credential with a refresh token performs exactly one refresh call,
no interactive authorization, and persists the refreshed value;
`get_google_drive_service` (healthcare_mcp_server.py) instead performs no
refresh and starts interactive authorization. -/
theorem authenticate_google_drive_refreshes_expired
    (refreshFn : Credential → Credential) (interactiveCred c : Credential)
    (hexp : c.expired = true) (hrt : c.refreshToken.isSome = true) :
    authenticate_google_drive refreshFn interactiveCred (some c) =
      { creds := refreshFn c, stored := some (refreshFn c),
        refreshCalls := 1, interactiveCalls := 0 } ∧
    (get_google_drive_service interactiveCred (some c)).refreshCalls = 0 ∧
    (get_google_drive_service interactiveCred (some c)).interactiveCalls = 1 := by
  simp [authenticate_google_drive, get_google_drive_service, Credential.valid,
    hexp, hrt]

/-- C2 amended, witness: the fixture expired credential takes the refresh
path of `authenticate_google_drive` and the interactive path of
`get_google_drive_service`. -/
theorem authenticate_google_drive_refreshes_expired_witness :
    authenticate_google_drive (fun c => { c with expired := false })
        freshCred (some expiredCred) =
      { creds := { expiredCred with expired := false },
        stored := some { expiredCred with expired := false },
        refreshCalls := 1, interactiveCalls := 0 } ∧
    (get_google_drive_service freshCred (some expiredCred)).refreshCalls = 0 ∧
    (get_google_drive_service freshCred (some expiredCred)).interactiveCalls = 1 :=
  authenticate_google_drive_refreshes_expired
    (fun c => { c with expired := false }) freshCred expiredCred rfl rfl

/-- C6: a valid (unexpired) persisted credential is returned unchanged by
both credential-obtaining functions: no refresh call, no interactive
authorization, and the persisted store is left as it was. -/
theorem valid_credential_no_network
    (refreshFn : Credential → Credential) (interactiveCred c : Credential)
    (h : c.valid = true) :
    authenticate_google_drive refreshFn interactiveCred (some c) =
      { creds := c, stored := some c, refreshCalls := 0, interactiveCalls := 0 } ∧
    get_google_drive_service interactiveCred (some c) =
      { creds := c, stored := some c, refreshCalls := 0, interactiveCalls := 0 } := by
  simp [authenticate_google_drive, get_google_drive_service, h]

/-- C6 witness: a concrete valid credential passes through both functions
untouched. -/
theorem valid_credential_no_network_witness :
    authenticate_google_drive (fun c => { c with expired := false })
        freshCred (some { token := some "live", expired := false, refreshToken := none }) =
      { creds := { token := some "live", expired := false, refreshToken := none },
        stored := some { token := some "live", expired := false, refreshToken := none },
        refreshCalls := 0, interactiveCalls := 0 } ∧
    get_google_drive_service freshCred
        (some { token := some "live", expired := false, refreshToken := none }) =
      { creds := { token := some "live", expired := false, refreshToken := none },
        stored := some { token := some "live", expired := false, refreshToken := none },
        refreshCalls := 0, interactiveCalls := 0 } :=
  valid_credential_no_network (fun c => { c with expired := false }) freshCred
    { token := some "live", expired := false, refreshToken := none } rfl

/-- The folder used in the multi-page listing fixture. -/
def bigFolder : DriveFile :=
  { id := "fid", name := "PatientRecord", mimeType := folderMime,
    size := none, modifiedTime := "2025-03-01T00:00:00Z", webViewLink := none,
    parents := [], trashed := false }

/-- A non-trashed child of `bigFolder`. -/
def childFile : DriveFile :=
  { id := "rec", name := "record.pdf", mimeType := "application/pdf",
    size := some "10", modifiedTime := "2025-03-02T00:00:00Z", webViewLink := none,
    parents := ["fid"], trashed := false }

/-- A drive whose "PatientRecord" folder holds 1001 files: one more than the
single `pageSize=1000` request can return. -/
def bigDrive : List DriveFile := bigFolder :: List.replicate 1001 childFile

set_option maxRecDepth 100000 in
/-- C3: on a folder of 1001 files the service's first page carries a
continuation token, but `list_files_in_folder` — which issues exactly one
`files().list` call and never reads `nextPageToken` — returns only the first
1000 files, so one matching remote object is missing from the result. -/
theorem list_files_in_folder_drops_second_page :
    (childrenOf bigDrive "fid").length = 1001 ∧
    (filesPage bigDrive "fid" 1000).nextPageToken.isSome = true ∧
    (list_files_in_folder bigDrive "PatientRecord").length = 1000 := by
  decide

/-- When every pending chunk is delivered successfully, the download loop
returns the buffer extended by the concatenation of all chunks, in transport
order. -/
theorem runDownload_ok (fh : List Nat) (chunks : List (List Nat)) :
    runDownload fh (chunks.map Except.ok) = .ok (fh ++ chunks.flatten) := by
  induction chunks generalizing fh with
  | nil => simp [runDownload]
  | cons c rest ih => simp [runDownload, ih]

/-- A raised transport error anywhere in the pending-chunk sequence aborts
the download: the accumulated buffer is discarded and the error is the
result. -/
theorem runDownload_error (fh : List Nat) (pre : List (List Nat)) (e : String)
    (post : List (Except String (List Nat))) :
    runDownload fh (pre.map Except.ok ++ Except.error e :: post) = .error e := by
  induction pre generalizing fh with
  | nil => simp [runDownload]
  | cons c rest ih => simp [runDownload, ih]

/-- The 10/10/5-byte three-chunk fixture of the spec scenario. -/
def chunkFixture : List (List Nat) :=
  [List.replicate 10 65, List.replicate 10 66, List.replicate 5 67]

/-- C4: the download loop of `get_latest_lab_results` returns exactly the
concatenation, in transport order, of all chunks the transport reports, and
consumes the whole pending sequence before returning; fetching the object a
prior listing returned yields that concatenation (decoded) in the formatted
result; the 10/10/5-byte fixture yields a 25-byte buffer. -/
theorem download_accumulates_all_chunks (chunks : List (List Nat)) (lf : LabFile)
    (transport : String → List (Except String (List Nat)))
    (ht : transport lf.id = chunks.map Except.ok) :
    runDownload [] (transport lf.id) = .ok chunks.flatten ∧
    get_latest_lab_results (.ok ()) (.ok [lf]) transport =
      "Latest lab results from " ++ lf.modifiedTime ++ ":\n" ++
        decodeBytes chunks.flatten ∧
    runDownload [] (chunkFixture.map Except.ok) = .ok chunkFixture.flatten ∧
    chunkFixture.flatten.length = 25 := by
  refine ⟨?_, ?_, ?_, by decide⟩
  · rw [ht, runDownload_ok]
    simp
  · simp [get_latest_lab_results, ht, runDownload_ok]
  · rw [runDownload_ok]
    simp

/-- C4 witness: a concrete transport delivering chunks `[1]` and `[2, 3]`
for the listed object. -/
theorem download_accumulates_all_chunks_witness :
    runDownload []
        ((fun i => if i == "f1" then [Except.ok [1], Except.ok [2, 3]] else [])
          "f1") = .ok [1, 2, 3] ∧
    get_latest_lab_results (.ok ())
        (.ok [{ id := "f1", name := "P001_LAB_2025.txt",
                modifiedTime := "2025-10-01T00:00:00Z" }])
        (fun i => if i == "f1" then [Except.ok [1], Except.ok [2, 3]] else []) =
      "Latest lab results from 2025-10-01T00:00:00Z:\n" ++ decodeBytes [1, 2, 3] ∧
    runDownload [] (chunkFixture.map Except.ok) = .ok chunkFixture.flatten ∧
    chunkFixture.flatten.length = 25 := by
  exact download_accumulates_all_chunks [[1], [2, 3]]
    { id := "f1", name := "P001_LAB_2025.txt", modifiedTime := "2025-10-01T00:00:00Z" }
    (fun i => if i == "f1" then [Except.ok [1], Except.ok [2, 3]] else []) rfl

/-- C5 counterexample: on a remote failure `list_files_in_folder` catches the
exception but returns the bare empty list: its return value is the same for
two different failure messages (and carries no message at all), so the claim
that every flow-boundary operation returns a value carrying a human-readable
error message is false for `list_files_in_folder`. -/
theorem list_files_error_result_is_bare_empty :
    list_files_catch (.error "socket timeout") = ([] : List FileInfo) ∧
    list_files_catch (.error "HttpError 500") = ([] : List FileInfo) :=
  ⟨rfl, rfl⟩

/-- C5 amended: no raw exception crosses any of the three flow boundaries.
`search_medical_documents` and `get_latest_lab_results` convert any remote
failure into an error string carrying the message, and a transport failure
mid-download discards the chunks already fetched (no partial content in the
result); `list_files_in_folder` catches the exception but returns the empty
list, the message being only printed. -/
theorem flow_boundaries_catch_all (msg e pid dtype : String) (lf : LabFile)
    (transport : String → List (Except String (List Nat)))
    (listResult : Except String (List LabFile))
    (pre : List (List Nat)) (post : List (Except String (List Nat)))
    (ht : transport lf.id = pre.map Except.ok ++ Except.error e :: post) :
    search_medical_documents (.error msg) listResult pid dtype =
      "Error accessing documents: " ++ msg ∧
    get_latest_lab_results (.ok ()) (.ok [lf]) transport =
      "Error retrieving lab results: " ++ e ∧
    list_files_catch (.error msg) = [] := by
  refine ⟨?_, ?_, rfl⟩
  · simp [search_medical_documents]
  · simp [get_latest_lab_results, ht, runDownload_error]

/-- C5 amended, witness: a service failure in the search tool, a mid-download
transport failure after one delivered chunk in the lab-results tool, and a
caught failure in the listing. -/
theorem flow_boundaries_catch_all_witness :
    search_medical_documents (.error "HttpError 403") (.ok []) "P001" "LAB" =
      "Error accessing documents: " ++ "HttpError 403" ∧
    get_latest_lab_results (.ok ())
        (.ok [{ id := "f2", name := "P001_LAB.txt",
                modifiedTime := "2025-09-01T00:00:00Z" }])
        (fun _ => [Except.ok [7], Except.error "connection reset"]) =
      "Error retrieving lab results: " ++ "connection reset" ∧
    list_files_catch (.error "HttpError 403") = [] := by
  exact flow_boundaries_catch_all "HttpError 403" "connection reset" "P001" "LAB"
    { id := "f2", name := "P001_LAB.txt", modifiedTime := "2025-09-01T00:00:00Z" }
    (fun _ => [Except.ok [7], Except.error "connection reset"]) (.ok [])
    [[7]] [] rfl

/-- C8: `list_files_in_folder` never writes to the remote store (the scope is
read-only and the body only issues list queries), so running it twice in
sequence — the second call seeing exactly the state the first call left —
yields the same ordered sequence of file records. -/
theorem list_files_idempotent (drive : List DriveFile) (folderName : String) :
    (list_files_run drive folderName).2 = drive ∧
    (list_files_run (list_files_run drive folderName).2 folderName).1 =
      (list_files_run drive folderName).1 := by
  have h2 : (list_files_run drive folderName).2 = drive := by
    unfold list_files_run
    split
    · rfl
    · dsimp only
      split
      · rfl
      · split <;> rfl
  exact ⟨h2, by rw [h2]⟩

/-- C9: the three patient-lookup tools only read `patients_db` (a single
`.get` each); for every database state and every argument the database after
the call is the database before it. -/
theorem patient_tools_leave_db_unchanged (db : PatientsDb)
    (pid department : String) :
    (get_patient_info_run db pid).2 = db ∧
    (get_department_history_run db pid department).2 = db ∧
    (get_all_departments_run db pid).2 = db := by
  refine ⟨?_, ?_, ?_⟩
  · unfold get_patient_info_run
    split <;> rfl
  · unfold get_department_history_run
    split
    · rfl
    · split <;> rfl
  · unfold get_all_departments_run
    split <;> rfl

/-- C10: the department lookup of `get_department_history` goes through
`department.lower()`, so two spellings with the same lowercasing retrieve the
same department record; every department key stored in `patients_db` is
already lowercase (so every casing of an existing department name finds its
record); and the patient id is looked up as given — `"p001"` misses while
`"P001"` hits. -/
theorem department_match_case_insensitive (pid d₁ d₂ : String)
    (h : strLower d₁ = strLower d₂) :
    deptLookup patients_db pid d₁ = deptLookup patients_db pid d₂ ∧
    patients_db.all
      (fun e => e.2.departments.all (fun kd => strLower kd.1 == kd.1)) = true ∧
    deptLookup patients_db "P001" "CARDIOLOGY" =
      deptLookup patients_db "P001" "cardiology" ∧
    (deptLookup patients_db "P001" "cardiology").isSome = true ∧
    (patients_db.lookup "p001").isSome = false ∧
    (patients_db.lookup "P001").isSome = true := by
  refine ⟨?_, by decide, by decide, by decide, by decide, by decide⟩
  unfold deptLookup
  rw [h]

/-- C10 witness: the mixed-case spelling "CaRdIoLoGy" retrieves the same
record as "cardiology". -/
theorem department_match_case_insensitive_witness :
    deptLookup patients_db "P001" "CaRdIoLoGy" =
      deptLookup patients_db "P001" "cardiology" ∧
    patients_db.all
      (fun e => e.2.departments.all (fun kd => strLower kd.1 == kd.1)) = true ∧
    deptLookup patients_db "P001" "CARDIOLOGY" =
      deptLookup patients_db "P001" "cardiology" ∧
    (deptLookup patients_db "P001" "cardiology").isSome = true ∧
    (patients_db.lookup "p001").isSome = false ∧
    (patients_db.lookup "P001").isSome = true :=
  department_match_case_insensitive "P001" "CaRdIoLoGy" "cardiology" (by decide)
